import Mathlib

/-!
Shallow embedding of the construction-helper chatbot (`src/cchatbot.py`).

The glossary (`knowledge_base`) is a JSON object; Python dicts enumerate in
insertion order, so it is embedded as an association list of
(keyword, answer) pairs.  The external collaborators — the TextBlob spell
corrector and the text2text generation pipeline — are parameters of the
embedded functions (`correct`, `nlp`); fallible variants take
`String → Except String String` to model a backend that may raise.
Conversation history is a list of (sender, message) pairs, exactly as in
`st.session_state.history`.
-/

namespace CChatbot

/-- Python substring containment `needle in hay`, on lists of characters:
true when `needle` occurs contiguously inside `hay` (the empty list occurs
in everything). -/
def containsSeq (needle : List Char) : List Char → Bool
  | [] => needle.isEmpty
  | b :: rest => needle.isPrefixOf (b :: rest) || containsSeq needle rest

/-- Python `needle in hay` on strings. -/
def strContains (hay needle : String) : Bool :=
  containsSeq needle.toList hay.toList

/-- Python `s.lower()`: lowercase every character (ASCII case mapping, which
covers every string the program manipulates). -/
def pyLower (s : String) : String :=
  ⟨s.data.map Char.toLower⟩

/-- Embeds `is_construction_related` (src/cchatbot.py line 34-35):
`any(word in text.lower() for word in knowledge_base.keys())`. -/
def is_construction_related (kb : List (String × String)) (text : String) : Bool :=
  kb.any fun e => strContains (pyLower text) e.1

/-- Embeds `get_knowledge_answer` (src/cchatbot.py line 37-41): scan the
glossary in enumeration order, return the first value whose key occurs in
the lowercased input, else `None`. -/
def get_knowledge_answer (kb : List (String × String)) (user_input : String) : Option String :=
  match kb with
  | [] => none
  | (key, value) :: rest =>
    if strContains (pyLower user_input) key then some value
    else get_knowledge_answer rest user_input

/-- Python truthiness of an `Optional[str]`: `None` and `""` are falsy. -/
def optTruthy : Option String → Bool
  | none => false
  | some s => !(s == "")

/-- Embeds `"\n".join([f"{u}: {m}" for u, m in history[-3:]])`
(src/cchatbot.py line 48). -/
def promptContext (history : List (String × String)) : String :=
  String.intercalate "\n" ((history.drop (history.length - 3)).map fun t => t.1 ++ ": " ++ t.2)

/-- Embeds the f-string `prompt` of `generate_response` (src/cchatbot.py
line 49-58).  The triple-quoted literal sits inside a function body indented
by four spaces, so the actual string opens with a newline, carries four
spaces of indentation on every template line, and ends with a newline plus
four spaces. -/
def buildPrompt (user_input : String) (history : List (String × String)) : String :=
  "\n    You are a civil engineer expert.\n    Answer clearly and only about construction materials, IS codes, and civil engineering.\n    If irrelevant, reply: \"Sorry, I only answer construction-related questions.\"\n\n    Chat history:\n    "
    ++ promptContext history
    ++ "\n\n    User: " ++ user_input ++ "\n    "

/-- Embeds `generate_response` (src/cchatbot.py line 43-60).  `nlp` stands
for the text2text pipeline: `nlp(prompt, ...)[0]["generated_text"]` is
`nlp prompt`.  `if kb_answer:` is Python truthiness, so an empty-string
glossary answer falls through to generation. -/
def generate_response (nlp : String → String) (kb : List (String × String))
    (user_input : String) (history : List (String × String)) : String :=
  let kb_answer := get_knowledge_answer kb user_input
  if optTruthy kb_answer then kb_answer.getD ""
  else nlp (buildPrompt user_input history)

/-- The refusal string assigned at src/cchatbot.py line 123 (note the
warning-sign marker in front). -/
def refusalMessage : String := "⚠️ Sorry, I only answer construction-related questions."

/-- The advisory message `f"🔧 Did you mean: **{corrected}** ?"` shown via
`st.info` at src/cchatbot.py line 126. -/
def didYouMean (corrected : String) : String :=
  "🔧 Did you mean: **" ++ corrected ++ "** ?"

/-- Observable outcome of one submit event: the optional advisory shown via
`st.info`, the reply, and the session history after the two appends. -/
structure SubmitResult where
  advisory : Option String
  answer : String
  history : List (String × String)
deriving Repr, DecidableEq

/-- Embeds the `if submitted and user_input:` handler (src/cchatbot.py
line 120-131): correct the spelling, refuse when `is_construction_related`
fails on the corrected text, otherwise show the advisory when the corrected
text differs case-insensitively from the raw input and generate the reply
from the corrected text; finally append the (user, raw input) and
(bot, answer) turns to the history. -/
def submitted (correct : String → String) (nlp : String → String)
    (kb : List (String × String)) (user_input : String)
    (history : List (String × String)) : SubmitResult :=
  let corrected := correct user_input
  if !(is_construction_related kb corrected) then
    ⟨none, refusalMessage, history ++ [("👤 You", user_input), ("🤖 Bot", refusalMessage)]⟩
  else
    let advisory := if pyLower corrected == pyLower user_input then none
                    else some (didYouMean corrected)
    let answer := generate_response nlp kb corrected history
    ⟨advisory, answer, history ++ [("👤 You", user_input), ("🤖 Bot", answer)]⟩

/-- Embeds `correct_spelling` (src/cchatbot.py line 31-32) against a
fallible corrector backend `blob` (TextBlob).  The function body is a bare
`return str(TextBlob(text).correct())` with no exception handler, so a
backend failure propagates. -/
def correct_spelling (blob : String → Except String String) (text : String) :
    Except String String :=
  blob text

/-- Embeds `generate_response` against a fallible generation backend: the
call `nlp(prompt, ...)` at src/cchatbot.py line 59 has no exception
handler, so a backend failure propagates out of the function. -/
def generate_responseE (nlp : String → Except String String)
    (kb : List (String × String)) (user_input : String)
    (history : List (String × String)) : Except String String :=
  let kb_answer := get_knowledge_answer kb user_input
  if optTruthy kb_answer then Except.ok (kb_answer.getD "")
  else nlp (buildPrompt user_input history)

/-- Modelled from the spec: the prompt template header exactly as displayed
in the spec's fenced block (no indentation), which the spec says "must be
reproduced verbatim for compatibility". -/
def specPromptHeader : String :=
  "You are a civil engineer expert.\nAnswer clearly and only about construction materials, IS codes, and civil engineering.\nIf irrelevant, reply: \"Sorry, I only answer construction-related questions.\""

-- Sanity checks on the embedding (concrete evaluations).
example : strContains "what is cement" "cement" = true := by decide
example : strContains "cement" "Cement" = false := by decide
example : get_knowledge_answer [("cement", "A binder.")] "What is CEMENT" = some "A binder." := by decide

/-! ### Helper lemmas -/

theorem containsSeq_iff (n h : List Char) : containsSeq n h = true ↔ n <:+: h := by
  induction h with
  | nil => simp [containsSeq, List.isEmpty_iff, List.infix_nil]
  | cons b rest ih => simp [containsSeq, List.infix_cons_iff, ih]

theorem strContains_iff (hay needle : String) :
    strContains hay needle = true ↔ needle.toList <:+: hay.toList := by
  simpa [strContains] using containsSeq_iff needle.toList hay.toList

theorem strContains_eq_decide (hay needle : String) :
    strContains hay needle = decide (needle.toList <:+: hay.toList) := by
  by_cases hp : needle.toList <:+: hay.toList
  · rw [(strContains_iff hay needle).2 hp, decide_eq_true hp]
  · rw [decide_eq_false hp]
    cases hb : strContains hay needle with
    | false => rfl
    | true => exact absurd ((strContains_iff hay needle).1 hb) hp

theorem lookup_isSome_iff (kb : List (String × String)) (t : String) :
    (get_knowledge_answer kb t).isSome = true ↔ is_construction_related kb t = true := by
  induction kb with
  | nil => simp [get_knowledge_answer, is_construction_related]
  | cons e rest ih =>
    obtain ⟨k, w⟩ := e
    by_cases hc : strContains (pyLower t) k
    · simp [get_knowledge_answer, is_construction_related, hc]
    · simpa [get_knowledge_answer, is_construction_related, hc] using ih

theorem lookup_mem (kb : List (String × String)) (t v : String)
    (h : get_knowledge_answer kb t = some v) : ∃ e ∈ kb, e.2 = v := by
  induction kb with
  | nil => simp [get_knowledge_answer] at h
  | cons e rest ih =>
    obtain ⟨k, w⟩ := e
    by_cases hc : strContains (pyLower t) k
    · simp [get_knowledge_answer, hc] at h
      exact ⟨(k, w), List.mem_cons_self _ _, h⟩
    · simp [get_knowledge_answer, hc] at h
      obtain ⟨e, he, hv⟩ := ih h
      exact ⟨e, List.mem_cons_of_mem _ he, hv⟩

theorem generate_response_of_hit (nlp : String → String) (kb : List (String × String))
    (input : String) (history : List (String × String)) (v : String)
    (h : get_knowledge_answer kb input = some v) (hv : v ≠ "") :
    generate_response nlp kb input history = v := by
  simp [generate_response, h, optTruthy, hv]

/-! ### Claim C1 -/

/-- C1 (counterexample): the corrected text "cement" (corrector is the
identity) lowercased contains the glossary key "cement", yet the reply is
the model's output "MODEL OUTPUT", not that key's glossary answer `""` —
Python's `if kb_answer:` treats the empty answer as falsy and falls through
to generation, so the claim as stated is false. -/
theorem C1_counterexample :
    strContains (pyLower (id "cement")) "cement" = true
    ∧ (submitted id (fun _ => "MODEL OUTPUT") [("cement", "")] "cement" []).answer ≠ "" :=
  ⟨by decide, by decide⟩

/-- C1 (amended): for every submitted input whose corrected text, lowercased,
contains a glossary key and whose first matching entry carries a non-empty
answer, the reply is that entry's answer verbatim, and the Language Model
Responder is never invoked (the reply is the same for every model `nlp`). -/
theorem C1_lookup_hit_answers_verbatim
    (correct nlp : String → String) (kb : List (String × String))
    (input : String) (history : List (String × String)) (v : String)
    (hfind : get_knowledge_answer kb (correct input) = some v) (hv : v ≠ "") :
    (submitted correct nlp kb input history).answer = v := by
  have hrel : is_construction_related kb (correct input) = true :=
    (lookup_isSome_iff kb (correct input)).1 (by simp [hfind])
  simp only [submitted, hrel, Bool.not_true, Bool.false_eq_true, if_false]
  exact generate_response_of_hit nlp kb (correct input) history v hfind hv

/-- C1 witness: a concrete run through `C1_lookup_hit_answers_verbatim`. -/
theorem C1_lookup_hit_answers_verbatim_witness :
    get_knowledge_answer [("cement", "Cement is a binder.")] (id "what is cement")
      = some "Cement is a binder."
    ∧ ("Cement is a binder." : String) ≠ ""
    ∧ (submitted id (fun _ => "MODEL OUTPUT") [("cement", "Cement is a binder.")]
        "what is cement" []).answer = "Cement is a binder." :=
  ⟨by decide, by decide,
    C1_lookup_hit_answers_verbatim id (fun _ => "MODEL OUTPUT")
      [("cement", "Cement is a binder.")] "what is cement" [] "Cement is a binder."
      (by decide) (by decide)⟩

/-! ### Claim C2 -/

/-- C2 (counterexample): on the input "hello" (unchanged by the corrector),
the relevance filter fails, but the reply is not the exact string
"Sorry, I only answer construction-related questions." — the code prefixes
a warning-sign marker. -/
theorem C2_counterexample :
    is_construction_related [("cement", "a binder")] (id "hello") = false
    ∧ (submitted id (fun _ => "MODEL OUTPUT") [("cement", "a binder")] "hello" []).answer
        ≠ "Sorry, I only answer construction-related questions." :=
  ⟨by decide, by decide⟩

/-- C2 (amended): for every submitted input whose corrected text fails the
relevance filter, the reply is exactly
"⚠️ Sorry, I only answer construction-related questions." (the fixed refusal
with its warning-sign marker), for every model `nlp` — so the Language Model
Responder is never consulted on that path. -/
theorem C2_refusal_exact
    (correct nlp : String → String) (kb : List (String × String))
    (input : String) (history : List (String × String))
    (h : is_construction_related kb (correct input) = false) :
    (submitted correct nlp kb input history).answer
      = "⚠️ Sorry, I only answer construction-related questions." := by
  simp [submitted, h, refusalMessage]

/-- C2 witness: a concrete run through `C2_refusal_exact`. -/
theorem C2_refusal_exact_witness :
    is_construction_related [("cement", "a binder")] (id "hello") = false
    ∧ (submitted id (fun _ => "MODEL OUTPUT") [("cement", "a binder")] "hello" []).answer
        = "⚠️ Sorry, I only answer construction-related questions." :=
  ⟨by decide,
    C2_refusal_exact id (fun _ => "MODEL OUTPUT") [("cement", "a binder")] "hello" []
      (by decide)⟩

/-! ### Claim C3 -/

/-- C3: `get_knowledge_answer` scans the glossary in its stable enumeration
order (the association-list order of the embedded mapping) and returns the
answer of the first entry whose key occurs as a contiguous substring of the
lowercased input; it returns `none` when no key occurs. -/
theorem C3_lookup_first_match (kb : List (String × String)) (input : String) :
    get_knowledge_answer kb input
      = (kb.find? fun e => decide (e.1.toList <:+: (pyLower input).toList)).map Prod.snd := by
  induction kb with
  | nil => simp [get_knowledge_answer]
  | cons e rest ih =>
    obtain ⟨k, w⟩ := e
    by_cases hc : strContains (pyLower input) k
    · rw [List.find?_cons_of_pos _ (by rw [← strContains_eq_decide]; exact hc)]
      simp [get_knowledge_answer, hc]
    · rw [List.find?_cons_of_neg _ (by rw [← strContains_eq_decide]; simpa using hc)]
      simp [get_knowledge_answer, hc, ih]

/-! ### Claim C4 -/

/-- C4 (counterexample): with the glossary entry keyed "Cement" and the text
"cement", the lowercased text contains the lowercased key, yet the filter
returns false — the code compares the key verbatim (not lowercased) against
the lowercased text. -/
theorem C4_counterexample :
    is_construction_related [("Cement", "a binder")] "cement" = false
    ∧ strContains (pyLower "cement") (pyLower "Cement") = true :=
  ⟨by decide, by decide⟩

/-- C4 (amended): the relevance filter returns true iff the lowercased text
contains, as a contiguous substring, at least one glossary key taken
verbatim (the code does not lowercase the keys; for the all-lowercase keys
required by the data model the two readings coincide). -/
theorem C4_filter_iff_contains_key (kb : List (String × String)) (text : String) :
    is_construction_related kb text = true
      ↔ ∃ e ∈ kb, e.1.toList <:+: (pyLower text).toList := by
  simp [is_construction_related, List.any_eq_true, strContains_iff]

/-! ### Claim C5 -/

/-- C5: the `nlp(prompt, ...)` call in `generate_response` has no exception
handler, so when the generation backend raises on the generation path the
error propagates out of the orchestrator instead of being converted into an
apology string (evaluated at the concrete failing input: empty glossary,
input "hello", backend that raises). -/
theorem C5_model_error_propagates :
    generate_responseE (fun _ => Except.error "ModelUnavailableError") [] "hello" []
      = Except.error "ModelUnavailableError" := rfl

/-! ### Claim C6 -/

/-- C6: `correct_spelling` is a bare call into the corrector backend with no
exception handler, so a backend failure propagates as an error instead of
falling back to the original text (evaluated at the concrete failing input
"helo" with a raising backend). -/
theorem C6_corrector_error_propagates :
    correct_spelling (fun _ => Except.error "SpellCorrectionError") "helo"
      = Except.error "SpellCorrectionError"
    ∧ correct_spelling (fun _ => Except.error "SpellCorrectionError") "helo"
      ≠ Except.ok "helo" :=
  ⟨rfl, by simp [correct_spelling]⟩

/-! ### Claim C7 -/

set_option maxRecDepth 20000

/-- C7 (counterexample): on the generation path (filter passes, no truthy
knowledge answer) with the model taken to be the identity — so the reply is
the prompt itself — the prompt does not contain the spec's fixed instruction
header verbatim: the f-string carries four spaces of indentation on every
line, so the unindented header of the spec never occurs in it. -/
theorem C7_counterexample :
    is_construction_related [("cement", "")] (id "what is cement") = true
    ∧ optTruthy (get_knowledge_answer [("cement", "")] (id "what is cement")) = false
    ∧ strContains ((submitted id id [("cement", "")] "what is cement" []).answer)
        specPromptHeader = false :=
  ⟨by decide, by decide, by decide⟩

/-- C7 (amended): for every input that passes the relevance filter with no
truthy knowledge answer (the only way the code reaches generation), the
reply is the model's output on the prompt, unmodified, where the prompt is
the instruction header with each line indented by four spaces and wrapped in
a leading newline and a trailing newline-plus-indent, then the last at-most-3
history turns each formatted as "speaker: text" joined by newlines, then
"User: " followed by the corrected input. -/
theorem C7_generation_prompt_shape
    (correct nlp : String → String) (kb : List (String × String))
    (input : String) (history : List (String × String))
    (hrel : is_construction_related kb (correct input) = true)
    (hkb : optTruthy (get_knowledge_answer kb (correct input)) = false) :
    (submitted correct nlp kb input history).answer
      = nlp ("\n    You are a civil engineer expert.\n    Answer clearly and only about construction materials, IS codes, and civil engineering.\n    If irrelevant, reply: \"Sorry, I only answer construction-related questions.\"\n\n    Chat history:\n    "
          ++ String.intercalate "\n"
              ((history.drop (history.length - 3)).map fun t => t.1 ++ ": " ++ t.2)
          ++ "\n\n    User: " ++ correct input ++ "\n    ") := by
  simp [submitted, hrel, generate_response, hkb, buildPrompt, promptContext]

/-- C7 witness: a concrete run through `C7_generation_prompt_shape`. -/
theorem C7_generation_prompt_shape_witness :
    is_construction_related [("cement", "")] (id "what is cement") = true
    ∧ optTruthy (get_knowledge_answer [("cement", "")] (id "what is cement")) = false
    ∧ (submitted id (fun p => p) [("cement", "")] "what is cement"
          [("👤 You", "hi"), ("🤖 Bot", "hello")]).answer
      = (fun p => p)
          ("\n    You are a civil engineer expert.\n    Answer clearly and only about construction materials, IS codes, and civil engineering.\n    If irrelevant, reply: \"Sorry, I only answer construction-related questions.\"\n\n    Chat history:\n    "
            ++ String.intercalate "\n"
                (([("👤 You", "hi"), ("🤖 Bot", "hello")].drop
                    ([("👤 You", "hi"), ("🤖 Bot", "hello")].length - 3)).map
                  fun t => t.1 ++ ": " ++ t.2)
            ++ "\n\n    User: " ++ id "what is cement" ++ "\n    ") :=
  ⟨by decide, by decide,
    C7_generation_prompt_shape id (fun p => p) [("cement", "")] "what is cement"
      [("👤 You", "hi"), ("🤖 Bot", "hello")] (by decide) (by decide)⟩

/-! ### Claim C8 -/

/-- C8 (counterexample): the corrector turns "helo" into "hello", which
differs case-insensitively from the raw input, and the relevance filter
fails — the code shows no "did you mean" advisory on the refusal path, so
the claim's "including alongside the refusal result" is false. -/
theorem C8_counterexample :
    pyLower ((fun _ => "hello") "helo") ≠ pyLower "helo"
    ∧ is_construction_related [("cement", "a binder")] ((fun _ => "hello") "helo") = false
    ∧ (submitted (fun _ => "hello") (fun _ => "MODEL OUTPUT")
        [("cement", "a binder")] "helo" []).advisory = none :=
  ⟨by decide, by decide, by decide⟩

/-- C8 (amended): the advisory is shown iff the corrected text passes the
relevance filter AND differs case-insensitively from the raw input, in which
case it is exactly "🔧 Did you mean: **corrected** ?"; it is never appended
to the history, which gains only the user and bot turns. -/
theorem C8_advisory_only_when_relevant
    (correct nlp : String → String) (kb : List (String × String))
    (input : String) (history : List (String × String)) :
    ((submitted correct nlp kb input history).advisory
      = if is_construction_related kb (correct input)
            && !(pyLower (correct input) == pyLower input)
        then some ("🔧 Did you mean: **" ++ correct input ++ "** ?")
        else none)
    ∧ (submitted correct nlp kb input history).history
      = history ++ [("👤 You", input), ("🤖 Bot", (submitted correct nlp kb input history).answer)] := by
  constructor
  · cases hrel : is_construction_related kb (correct input) with
    | false => simp [submitted, hrel]
    | true =>
      cases heq : pyLower (correct input) == pyLower input with
      | false => simp [submitted, hrel, heq, didYouMean]
      | true => simp [submitted, hrel, heq]
  · cases hrel : is_construction_related kb (correct input) with
    | false => simp [submitted, hrel, refusalMessage]
    | true => simp [submitted, hrel]

/-! ### Claim C9 -/

/-- C9: the relevance filter accepts a text exactly when the knowledge
lookup on that text finds a match (both scan the same keys with the same
substring test); consequently, whenever every glossary answer is non-empty,
the outcome of a submit event is the same for every model — the Generating
branch is unreachable and the Language Model Responder is never invoked. -/
theorem C9_filter_lookup_agree_model_unused
    (kb : List (String × String)) (text : String)
    (correct n₁ n₂ : String → String) (input : String)
    (history : List (String × String)) :
    (is_construction_related kb text = true ↔ (get_knowledge_answer kb text).isSome = true)
    ∧ ((∀ e ∈ kb, e.2 ≠ "") →
        submitted correct n₁ kb input history = submitted correct n₂ kb input history) := by
  refine ⟨(lookup_isSome_iff kb text).symm, fun hne => ?_⟩
  cases hrel : is_construction_related kb (correct input) with
  | false => simp [submitted, hrel]
  | true =>
    obtain ⟨v, hv⟩ : ∃ v, get_knowledge_answer kb (correct input) = some v :=
      Option.isSome_iff_exists.1 ((lookup_isSome_iff kb (correct input)).2 hrel)
    obtain ⟨e, he, hev⟩ := lookup_mem kb (correct input) v hv
    have hvne : v ≠ "" := hev ▸ hne e he
    simp [submitted, hrel, generate_response_of_hit _ kb (correct input) history v hv hvne]

/-- C9 witness: a concrete glossary with non-empty answers on which two
different models yield the same submit outcome. -/
theorem C9_filter_lookup_agree_model_unused_witness :
    (∀ e ∈ [("cement", "a binding material")], e.2 ≠ "")
    ∧ submitted id (fun _ => "MODEL A") [("cement", "a binding material")] "need cement" []
        = submitted id (fun _ => "MODEL B") [("cement", "a binding material")] "need cement" [] :=
  ⟨by decide,
    (C9_filter_lookup_agree_model_unused [("cement", "a binding material")] "need cement"
      id (fun _ => "MODEL A") (fun _ => "MODEL B") "need cement" []).2 (by decide)⟩

/-! ### Claim C10 -/

/-- C10: on every submitted non-empty input, exactly the user turn carrying
the raw input and then the bot turn carrying the reply are appended to the
history, leaving all earlier entries unchanged — even though the reply is
computed from the corrected text. -/
theorem C10_history_appends
    (correct nlp : String → String) (kb : List (String × String))
    (input : String) (history : List (String × String)) (_h : input ≠ "") :
    (submitted correct nlp kb input history).history
      = history ++ [("👤 You", input), ("🤖 Bot", (submitted correct nlp kb input history).answer)] := by
  cases hrel : is_construction_related kb (correct input) with
  | false => simp [submitted, hrel, refusalMessage]
  | true => simp [submitted, hrel]

/-- C10 witness: a concrete run through `C10_history_appends`. -/
theorem C10_history_appends_witness :
    ("hi" : String) ≠ ""
    ∧ (submitted id (fun _ => "MODEL OUTPUT") [] "hi" []).history
        = [] ++ [("👤 You", "hi"), ("🤖 Bot", (submitted id (fun _ => "MODEL OUTPUT") [] "hi" []).answer)] :=
  ⟨by decide, C10_history_appends id (fun _ => "MODEL OUTPUT") [] "hi" [] (by decide)⟩

end CChatbot
